import Mathlib

/-!
Verification of the single-page adventure-game application (src/App.js).

The component state and the two turn handlers (`startNewStory`,
`handleChoice`), the fetch wrapper (`fetchFromOpenAI`), the error-view retry
button and the credential-removal button are shallowly embedded as pure Lean
functions. The outcome of one network call is passed in as an explicit
`ApiResponse` value: a non-2xx response carries the optional `error.message`
field of its JSON body, and a 2xx response carries the parse outcome of the
completion content. JavaScript values that may be `undefined` are modelled
as `Option`.
-/

namespace AdventureGame

/-- JavaScript string coercion under the `+` operator: a defined string is
itself, while `undefined` renders as the text "undefined". -/
def jsConcatCoerce : Option String → String
  | some s => s
  | none => "undefined"

/-- JavaScript `Array.prototype.join` coerces an `undefined` element to the
empty string, unlike the `+` operator. -/
def jsJoinCoerce : Option String → String
  | some s => s
  | none => ""

/-- One story segment as committed by a turn handler: the `text` and `art`
fields read off the parsed reply. Either field is `undefined` when the reply
omits it, so both are `Option`. -/
structure Segment where
  text : Option String
  art : Option String
deriving DecidableEq

/-- Result of `JSON.parse` applied to the completion content, projected to
the three fields the handlers read (`data.text`, `data.art`,
`data.choices`); a field missing from the parsed object reads as
`undefined`, that is `none`. -/
structure ParsedContent where
  text? : Option String
  art? : Option String
  choices? : Option (List String)
deriving DecidableEq

/-- Outcome of `JSON.parse` on the completion content string: either a
thrown syntax error, whose message the catch block reads, or parsed data. -/
inductive ContentParse where
  | failure (message : String)
  | ok (data : ParsedContent)
deriving DecidableEq

/-- Outcome of one `fetchFromOpenAI` call as observed by a handler: a
non-2xx response carries the optional `error.message` field of its JSON
body, and a 2xx response yields the completion content, represented here by
its parse outcome. -/
inductive ApiResponse where
  | httpFailure (message : Option String)
  | ok (content : ContentParse)
deriving DecidableEq

/-- Message of the `Error` thrown by `fetchFromOpenAI` on a non-2xx
response: `errorData.error?.message || "Unknown API error"`, where the
JavaScript `||` falls through both on `undefined` and on the empty string
(both are falsy). -/
def httpErrorMessage : Option String → String
  | some m => if m = "" then "Unknown API error" else m
  | none => "Unknown API error"

/-- Message of the error a handler catches for a failing response; on a
successful response no error is thrown and this value is unused. -/
def ApiResponse.failureMessage : ApiResponse → String
  | .httpFailure m => httpErrorMessage m
  | .ok (.failure m) => m
  | .ok (.ok _) => ""

/-- True exactly when the call throws: a non-2xx response or a completion
content that fails JSON parsing. -/
def ApiResponse.isFailure : ApiResponse → Bool
  | .httpFailure _ => true
  | .ok (.failure _) => true
  | .ok (.ok _) => false

/-- The mutable component state, one field per `useState` hook: `apiKey`,
`storySegments`, `choices`, `loading`, `error`, `initialized`. The
`choices` field is `Option (List String)` because `setChoices(data.choices)`
stores `undefined` when the reply has no `choices` field; the initial value
is the defined empty array. -/
structure AppState where
  apiKey : String
  storySegments : List Segment
  choices : Option (List String)
  loading : Bool
  error : String
  initialized : Bool
deriving DecidableEq

/-- The initial values of the six `useState` hooks. -/
def initialState : AppState :=
  { apiKey := "", storySegments := [], choices := some [], loading := false,
    error := "", initialized := false }

/-- The text of every story segment so far, joined by blank lines:
`storySegments.map(segment => segment.text).join("\n\n")`. -/
def previousStory (segments : List Segment) : String :=
  String.intercalate "\n\n" (segments.map (fun seg => jsJoinCoerce seg.text))

/-- The continue prompt built by `handleChoice` from the story so far and
the selected choice (which is `undefined` for an out-of-range index). -/
def continuePrompt (segments : List Segment) (selectedChoice : Option String) : String :=
  "Continue the choose-your-own-adventure story. " ++
  "Here\x27s the story so far:\n\n" ++ previousStory segments ++ "\n\n" ++
  "The player chose: \"" ++ jsConcatCoerce selectedChoice ++ "\"\n\n" ++
  "Continue the story with a new paragraph based on this choice. " ++
  "Include a simple ASCII art scene (around 10-15 lines) that represents the new situation. " ++
  "End with exactly two distinct new choices for how the player might proceed. " ++
  "Format your response as JSON with the following structure: " ++
  "\x7b\"text\": \"story paragraph\", \"art\": \"ASCII art\", \"choices\": [\"choice 1\", \"choice 2\"]\x7d"

/-- The `startNewStory` handler, with the outcome of its one network call
passed in. It sets the loading flag, clears the error, and then either
catches a thrown error (non-2xx response or content parse failure),
recording it with the text "Failed to start story: ", or commits: the
segment list is replaced by the single new segment, the choice set by the
`choices` field of the reply, and `initialized` is set. The `finally` block
clears the loading flag on every path. A reply that parses but misses
fields throws nothing and is committed with `undefined` field values. -/
def startNewStory (s : AppState) (r : ApiResponse) : AppState :=
  let s1 : AppState := { s with loading := true, error := "" }
  let s2 : AppState :=
    match r with
    | .httpFailure m =>
        { s1 with error := "Failed to start story: " ++ httpErrorMessage m }
    | .ok (.failure m) =>
        { s1 with error := "Failed to start story: " ++ m }
    | .ok (.ok data) =>
        { s1 with
          storySegments := [{ text := data.text?, art := data.art? }],
          choices := data.choices?,
          initialized := true }
  { s2 with loading := false }

set_option linter.unusedVariables false in
/-- The `handleChoice(choiceIndex)` handler, with the outcome of its one
network call passed in. It first reads `choices[choiceIndex]`; when the
`choices` state is itself `undefined` that lookup throws a `TypeError`
before any state update runs (line 59 is outside the `try` block), so the
state is returned unchanged. Otherwise it sets the loading flag, clears the
error, and either catches a thrown error, recording it with the text
"Failed to continue story: ", or appends one new segment to
`storySegments` and replaces the choice set by the `choices` field of the
reply. The `finally` block clears the loading flag. -/
def handleChoice (s : AppState) (choiceIndex : Nat) (r : ApiResponse) : AppState :=
  match s.choices with
  | none => s
  | some _ =>
    let s1 : AppState := { s with loading := true, error := "" }
    let s2 : AppState :=
      match r with
      | .httpFailure m =>
          { s1 with error := "Failed to continue story: " ++ httpErrorMessage m }
      | .ok (.failure m) =>
          { s1 with error := "Failed to continue story: " ++ m }
      | .ok (.ok data) =>
          { s1 with
            storySegments := s.storySegments ++ [{ text := data.text?, art := data.art? }],
            choices := data.choices? }
    { s2 with loading := false }

/-- The prompt `handleChoice(choiceIndex)` sends, as a function of the
state: the continue prompt around `choices[choiceIndex]`, which is
`undefined` for an out-of-range index. When the `choices` state is itself
`undefined` the handler throws before building any prompt, so no prompt is
sent; that case is mapped to the empty string. -/
def handleChoicePrompt (s : AppState) (choiceIndex : Nat) : String :=
  match s.choices with
  | none => ""
  | some cs => continuePrompt s.storySegments (cs.get? choiceIndex)

/-- The Try Again button of the error view: `onClick=... handleChoice(0)`,
a call of `handleChoice` at index 0 whatever was clicked before. -/
def retry (s : AppState) (r : ApiResponse) : AppState :=
  handleChoice s 0 r

/-- The prompt the Try Again button causes to be sent. -/
def retryPrompt (s : AppState) : String :=
  handleChoicePrompt s 0

/-- Browser local storage, modelled as an association list from keys to
stored string values. -/
abbrev Storage := List (String × String)

/-- `localStorage.removeItem(key)`: every entry under the key is removed. -/
def Storage.removeItem (st : Storage) (k : String) : Storage :=
  st.filter (fun p => p.1 != k)

/-- `localStorage.getItem(key)`: the stored value, or `none` for null. -/
def Storage.getItem (st : Storage) (k : String) : Option String :=
  st.lookup k

/-- The Remove API Key button handler: removes the value stored under the
fixed key "openai_api_key" from local storage, and resets `apiKey` to the
empty string, `storySegments` to the empty list, `choices` to the defined
empty array and `initialized` to false. -/
def removeApiKey (s : AppState) (st : Storage) : AppState × Storage :=
  ({ s with apiKey := "", storySegments := [], choices := some [],
            initialized := false },
   Storage.removeItem st "openai_api_key")

/-- The top-level render branch: the unauthenticated key-entry view is shown
exactly when `apiKey` is falsy, that is the empty string. -/
def showsUnauthenticatedView (s : AppState) : Bool :=
  s.apiKey = ""

/-- A sequence of continue turns: each element pairs the clicked index with
the outcome of the network call made for it. -/
def runTurns (s : AppState) (turns : List (Nat × ApiResponse)) : AppState :=
  turns.foldl (fun st t => handleChoice st t.1 t.2) s

/-- A response that completes a turn normally and leaves the choice set an
array: a 2xx reply whose content parsed and carried a `choices` field. -/
def turnOk : ApiResponse → Bool
  | .ok (.ok d) => d.choices?.isSome
  | _ => false

/-- A concrete authenticated state with one committed segment and two
choices, used as the prior state of several concrete evaluations. -/
def demoState : AppState :=
  { apiKey := "sk-demo", storySegments := [{ text := some "a", art := some "b" }],
    choices := some ["c", "d"], loading := false, error := "", initialized := true }

/- Shape lemmas for the two handlers. -/

lemma startNewStory_ok (s : AppState) (d : ParsedContent) :
    startNewStory s (.ok (.ok d)) =
      { s with storySegments := [{ text := d.text?, art := d.art? }],
               choices := d.choices?, loading := false, error := "",
               initialized := true } := rfl

lemma startNewStory_fail (s : AppState) (r : ApiResponse) (h : r.isFailure = true) :
    startNewStory s r =
      { s with loading := false,
               error := "Failed to start story: " ++ r.failureMessage } := by
  match r with
  | .httpFailure m => rfl
  | .ok (.failure m) => rfl
  | .ok (.ok d) => simp [ApiResponse.isFailure] at h

lemma handleChoice_ok (s : AppState) (cs : List String) (hcs : s.choices = some cs)
    (i : Nat) (d : ParsedContent) :
    handleChoice s i (.ok (.ok d)) =
      { s with storySegments := s.storySegments ++ [{ text := d.text?, art := d.art? }],
               choices := d.choices?, loading := false, error := "" } := by
  simp [handleChoice, hcs]

lemma handleChoice_fail (s : AppState) (cs : List String) (hcs : s.choices = some cs)
    (i : Nat) (r : ApiResponse) (h : r.isFailure = true) :
    handleChoice s i r =
      { s with loading := false,
               error := "Failed to continue story: " ++ r.failureMessage } := by
  match r with
  | .httpFailure m => simp [handleChoice, hcs, ApiResponse.failureMessage]
  | .ok (.failure m) => simp [handleChoice, hcs, ApiResponse.failureMessage]
  | .ok (.ok d) => simp [ApiResponse.isFailure] at h

/-- C1: the claim states that a malformed payload — content failing JSON
parsing or missing the required text, art or choices fields — is caught and
leaves segments and choices unchanged. Counterexample: a reply whose content
parses to an object with all three fields missing throws nothing, so
`startNewStory` records no error and still overwrites the segment list and
the choice set. -/
theorem missing_fields_commit_state :
    (startNewStory demoState (.ok (.ok { text? := none, art? := none, choices? := none }))).error = "" ∧
    (startNewStory demoState (.ok (.ok { text? := none, art? := none, choices? := none }))).storySegments ≠ demoState.storySegments ∧
    (startNewStory demoState (.ok (.ok { text? := none, art? := none, choices? := none }))).choices ≠ demoState.choices := by
  refine ⟨rfl, ?_, ?_⟩ <;> decide

/-- C1 (amended): for every reply that throws — a non-2xx response or a
content that fails JSON parsing — both handlers catch the failure, record a
single user-visible error message, and leave the segment list and the choice
set unchanged. A reply that parses but misses required fields raises no
error and is committed. -/
theorem failures_caught_state_intact (s : AppState) (r : ApiResponse)
    (hr : r.isFailure = true) (cs : List String) (hcs : s.choices = some cs) (i : Nat) :
    ((startNewStory s r).storySegments = s.storySegments ∧
     (startNewStory s r).choices = s.choices ∧
     (startNewStory s r).error = "Failed to start story: " ++ r.failureMessage) ∧
    ((handleChoice s i r).storySegments = s.storySegments ∧
     (handleChoice s i r).choices = s.choices ∧
     (handleChoice s i r).error = "Failed to continue story: " ++ r.failureMessage) := by
  rw [startNewStory_fail s r hr, handleChoice_fail s cs hcs i r hr]
  exact ⟨⟨rfl, rfl, rfl⟩, ⟨rfl, rfl, rfl⟩⟩

/-- C1 witness: the amended theorem applied to a concrete parse failure in
the demo state. -/
theorem failures_caught_state_intact_witness :
    ((startNewStory demoState (.ok (.failure "Unexpected token"))).storySegments = demoState.storySegments ∧
     (startNewStory demoState (.ok (.failure "Unexpected token"))).choices = demoState.choices ∧
     (startNewStory demoState (.ok (.failure "Unexpected token"))).error =
       "Failed to start story: " ++ (ApiResponse.ok (.failure "Unexpected token")).failureMessage) ∧
    ((handleChoice demoState 1 (.ok (.failure "Unexpected token"))).storySegments = demoState.storySegments ∧
     (handleChoice demoState 1 (.ok (.failure "Unexpected token"))).choices = demoState.choices ∧
     (handleChoice demoState 1 (.ok (.failure "Unexpected token"))).error =
       "Failed to continue story: " ++ (ApiResponse.ok (.failure "Unexpected token")).failureMessage) :=
  failures_caught_state_intact demoState (.ok (.failure "Unexpected token")) rfl
    ["c", "d"] rfl 1

/-- C3: a non-2xx response whose body carries the error message
"rate limited" yields exactly "Failed to start story: rate limited" from the
initial call and exactly "Failed to continue story: rate limited" from a
continue call. -/
theorem rate_limited_error_texts (s : AppState) (cs : List String)
    (hcs : s.choices = some cs) (i : Nat) :
    (startNewStory s (.httpFailure (some "rate limited"))).error =
      "Failed to start story: rate limited" ∧
    (handleChoice s i (.httpFailure (some "rate limited"))).error =
      "Failed to continue story: rate limited" := by
  rw [startNewStory_fail s (.httpFailure (some "rate limited")) rfl,
    handleChoice_fail s cs hcs i (.httpFailure (some "rate limited")) rfl]
  exact ⟨rfl, rfl⟩

/-- C3 witness: the theorem applied to the demo state at index 0. -/
theorem rate_limited_error_texts_witness :
    (startNewStory demoState (.httpFailure (some "rate limited"))).error =
      "Failed to start story: rate limited" ∧
    (handleChoice demoState 0 (.httpFailure (some "rate limited"))).error =
      "Failed to continue story: rate limited" :=
  rate_limited_error_texts demoState ["c", "d"] rfl 0

/-- C5: a successful first call whose content parses to text T, art A and
choices X, Y leaves exactly one segment holding T and A, and exactly the
choice set X, Y. -/
theorem first_turn_commits_reply (t a x y : String) :
    (startNewStory initialState (.ok (.ok { text? := some t, art? := some a, choices? := some [x, y] }))).storySegments =
      [{ text := some t, art := some a }] ∧
    (startNewStory initialState (.ok (.ok { text? := some t, art? := some a, choices? := some [x, y] }))).choices =
      some [x, y] :=
  ⟨rfl, rfl⟩

/-- C4: the claim states the choice set has exactly two entries after any
successful turn. Counterexample: neither handler validates the length of the
reply array, so a reply carrying three choices completes the turn with no
error and leaves a choice set of three entries. -/
theorem three_choices_accepted :
    (handleChoice demoState 0 (.ok (.ok { text? := some "T", art? := some "A", choices? := some ["X", "Y", "Z"] }))).error = "" ∧
    (handleChoice demoState 0 (.ok (.ok { text? := some "T", art? := some "A", choices? := some ["X", "Y", "Z"] }))).choices = some ["X", "Y", "Z"] ∧
    ((handleChoice demoState 0 (.ok (.ok { text? := some "T", art? := some "A", choices? := some ["X", "Y", "Z"] }))).choices.getD []).length ≠ 2 := by
  refine ⟨rfl, rfl, ?_⟩
  decide

/-- C4 (amended): after every successful turn the choice set equals the
choices field of the reply — a full replacement, with no entry of the
previous choice set merged in or retained — so it has exactly two entries
exactly when the reply carries exactly two. -/
theorem choices_fully_replaced (s : AppState) (cs : List String)
    (hcs : s.choices = some cs) (i : Nat) (d : ParsedContent) :
    (startNewStory s (.ok (.ok d))).choices = d.choices? ∧
    (handleChoice s i (.ok (.ok d))).choices = d.choices? ∧
    (∀ l, d.choices? = some l → l.length = 2 →
      ((handleChoice s i (.ok (.ok d))).choices.getD []).length = 2) := by
  rw [startNewStory_ok, handleChoice_ok s cs hcs i d]
  refine ⟨rfl, rfl, ?_⟩
  intro l hl h2
  simp [hl, h2]

/-- C4 witness: the amended theorem applied to the demo state and a
two-choice reply. -/
theorem choices_fully_replaced_witness :
    (startNewStory demoState (.ok (.ok { text? := some "T", art? := some "A", choices? := some ["X", "Y"] }))).choices = some ["X", "Y"] ∧
    (handleChoice demoState 1 (.ok (.ok { text? := some "T", art? := some "A", choices? := some ["X", "Y"] }))).choices = some ["X", "Y"] ∧
    (∀ l, some ["X", "Y"] = some l → l.length = 2 →
      ((handleChoice demoState 1 (.ok (.ok { text? := some "T", art? := some "A", choices? := some ["X", "Y"] }))).choices.getD []).length = 2) :=
  choices_fully_replaced demoState ["c", "d"] rfl 1
    { text? := some "T", art? := some "A", choices? := some ["X", "Y"] }

/-- C6: the claim states that re-invoking `startNewStory` discards all prior
segments and choices unconditionally, whether the new request succeeds or
fails. Counterexample: on a failing request nothing is discarded — the
prior, nonempty segment list and choice set survive unchanged. -/
theorem restart_failure_keeps_state :
    (startNewStory demoState (.httpFailure none)).storySegments = demoState.storySegments ∧
    demoState.storySegments ≠ [] ∧
    (startNewStory demoState (.httpFailure none)).choices = demoState.choices ∧
    demoState.choices ≠ some [] := by
  refine ⟨rfl, ?_, rfl, ?_⟩ <;> decide

/-- C6 (amended): re-invoking `startNewStory` discards all prior segments
and choices when the new request succeeds — the committed segment list and
choice set are derived from the reply alone — while on a failing request
every prior segment and choice survives unchanged. -/
theorem restart_discards_only_on_success (s : AppState) (d : ParsedContent)
    (r : ApiResponse) (hr : r.isFailure = true) :
    ((startNewStory s (.ok (.ok d))).storySegments = [{ text := d.text?, art := d.art? }] ∧
     (startNewStory s (.ok (.ok d))).choices = d.choices?) ∧
    ((startNewStory s r).storySegments = s.storySegments ∧
     (startNewStory s r).choices = s.choices) := by
  rw [startNewStory_ok, startNewStory_fail s r hr]
  exact ⟨⟨rfl, rfl⟩, rfl, rfl⟩

/-- C6 witness: the amended theorem applied to the demo state, a concrete
reply and a concrete HTTP failure. -/
theorem restart_discards_only_on_success_witness :
    ((startNewStory demoState (.ok (.ok { text? := some "T", art? := some "A", choices? := some ["X", "Y"] }))).storySegments =
       [{ text := some "T", art := some "A" }] ∧
     (startNewStory demoState (.ok (.ok { text? := some "T", art? := some "A", choices? := some ["X", "Y"] }))).choices =
       some ["X", "Y"]) ∧
    ((startNewStory demoState (.httpFailure none)).storySegments = demoState.storySegments ∧
     (startNewStory demoState (.httpFailure none)).choices = demoState.choices) :=
  restart_discards_only_on_success demoState
    { text? := some "T", art? := some "A", choices? := some ["X", "Y"] }
    (.httpFailure none) rfl

lemma getItem_removeItem (st : Storage) (k : String) :
    Storage.getItem (Storage.removeItem st k) k = none := by
  induction st with
  | nil => rfl
  | cons p ps ih =>
    by_cases h : p.1 = k
    · simpa [Storage.removeItem, Storage.getItem, List.filter_cons, h] using ih
    · simpa [Storage.removeItem, Storage.getItem, List.filter_cons, h,
        List.lookup, beq_false_of_ne (Ne.symm h)] using ih

/-- C7: removing the credential clears the segment list, the choice set, the
in-memory credential, the initialized flag, and the value stored under the
fixed key in local storage, and the application then shows the initial
unauthenticated view. -/
theorem remove_key_clears_state (s : AppState) (st : Storage) :
    (removeApiKey s st).1.storySegments = [] ∧
    (removeApiKey s st).1.choices = some [] ∧
    (removeApiKey s st).1.apiKey = "" ∧
    (removeApiKey s st).1.initialized = false ∧
    Storage.getItem (removeApiKey s st).2 "openai_api_key" = none ∧
    showsUnauthenticatedView (removeApiKey s st).1 = true := by
  refine ⟨rfl, rfl, rfl, rfl, ?_, ?_⟩
  · exact getItem_removeItem st "openai_api_key"
  · simp [showsUnauthenticatedView, removeApiKey]

lemma turnOk_elim {r : ApiResponse} (h : turnOk r = true) :
    ∃ d, r = .ok (.ok d) ∧ d.choices?.isSome = true := by
  match r with
  | .httpFailure m => simp [turnOk] at h
  | .ok (.failure m) => simp [turnOk] at h
  | .ok (.ok d) => exact ⟨d, rfl, by simpa [turnOk] using h⟩

lemma runTurns_cons (s : AppState) (t : Nat × ApiResponse)
    (ts : List (Nat × ApiResponse)) :
    runTurns s (t :: ts) = runTurns (handleChoice s t.1 t.2) ts := rfl

lemma runTurns_append (s : AppState) (ts us : List (Nat × ApiResponse)) :
    runTurns s (ts ++ us) = runTurns (runTurns s ts) us :=
  List.foldl_append ..

lemma runTurns_ok (turns : List (Nat × ApiResponse))
    (hall : ∀ t ∈ turns, turnOk t.2 = true) :
    ∀ s : AppState, s.choices.isSome = true →
      (runTurns s turns).storySegments.length =
        s.storySegments.length + turns.length ∧
      (∃ tail, (runTurns s turns).storySegments = s.storySegments ++ tail) ∧
      (runTurns s turns).choices.isSome = true := by
  induction turns with
  | nil => exact fun s hs => ⟨rfl, ⟨[], by simp [runTurns]⟩, hs⟩
  | cons t ts ih =>
    intro s hs
    obtain ⟨cs, hcs⟩ := Option.isSome_iff_exists.mp hs
    obtain ⟨d, hr, hds⟩ := turnOk_elim (hall t (List.mem_cons_self t ts))
    have hstep : handleChoice s t.1 t.2 =
        { s with storySegments := s.storySegments ++ [{ text := d.text?, art := d.art? }],
                 choices := d.choices?, loading := false, error := "" } := by
      rw [hr]; exact handleChoice_ok s cs hcs t.1 d
    have ihall : ∀ u ∈ ts, turnOk u.2 = true :=
      fun u hu => hall u (List.mem_cons_of_mem t hu)
    obtain ⟨hlen, ⟨tail, htail⟩, hsome⟩ :=
      ih ihall (handleChoice s t.1 t.2) (by rw [hstep]; simpa using hds)
    rw [runTurns_cons]
    refine ⟨?_, ⟨{ text := d.text?, art := d.art? } :: tail, ?_⟩, hsome⟩
    · rw [hlen, hstep]
      simp [Nat.add_assoc, Nat.add_comm 1 ts.length]
    · rw [htail, hstep]
      simp

/-- C2: after a successful initial call and any sequence of successful
continue turns (no restart), the segment list is append-only — after the
first k continue turns it has exactly 1 + k entries, and the list at any
intermediate point is an initial portion of the final list, so no earlier
entry is modified — and its final length is the number of successful turns
completed, counting the initial one. -/
theorem segments_append_only (s0 : AppState) (d0 : ParsedContent)
    (hd0 : d0.choices?.isSome = true) (turns : List (Nat × ApiResponse))
    (hall : ∀ t ∈ turns, turnOk t.2 = true) (k : Nat) (hk : k ≤ turns.length) :
    (runTurns (startNewStory s0 (.ok (.ok d0))) (turns.take k)).storySegments.length = 1 + k ∧
    (runTurns (startNewStory s0 (.ok (.ok d0))) turns).storySegments.length = 1 + turns.length ∧
    ∃ tail, (runTurns (startNewStory s0 (.ok (.ok d0))) turns).storySegments =
      (runTurns (startNewStory s0 (.ok (.ok d0))) (turns.take k)).storySegments ++ tail := by
  set s1 := startNewStory s0 (.ok (.ok d0)) with hs1
  have hs1segs : s1.storySegments = [{ text := d0.text?, art := d0.art? }] := by
    rw [hs1, startNewStory_ok]
  have hs1choices : s1.choices.isSome = true := by
    rw [hs1, startNewStory_ok]; simpa using hd0
  have htake : ∀ u ∈ turns.take k, turnOk u.2 = true :=
    fun u hu => hall u (List.take_subset k turns hu)
  obtain ⟨hlenk, _, hsomek⟩ := runTurns_ok (turns.take k) htake s1 hs1choices
  have hlenk' : (runTurns s1 (turns.take k)).storySegments.length = 1 + k := by
    rw [hlenk, hs1segs]
    simp [List.length_take, Nat.min_eq_left hk]
  have hdrop : ∀ u ∈ turns.drop k, turnOk u.2 = true :=
    fun u hu => hall u (List.drop_subset k turns hu)
  obtain ⟨hlend, ⟨tail, htail⟩, _⟩ :=
    runTurns_ok (turns.drop k) hdrop (runTurns s1 (turns.take k)) hsomek
  have hsplit : runTurns s1 turns =
      runTurns (runTurns s1 (turns.take k)) (turns.drop k) := by
    rw [← runTurns_append, List.take_append_drop]
  refine ⟨hlenk', ?_, ⟨tail, ?_⟩⟩
  · rw [hsplit, hlend, hlenk', List.length_drop]
    omega
  · rw [hsplit, htail]

/-- C2 witness: one successful initial call followed by two successful
continue turns, inspected after the first of them. -/
theorem segments_append_only_witness :
    (runTurns (startNewStory initialState (.ok (.ok { text? := some "T", art? := some "A", choices? := some ["X", "Y"] })))
      (List.take 1 [(0, .ok (.ok { text? := some "U", art? := some "B", choices? := some ["P", "Q"] })),
        (1, .ok (.ok { text? := some "V", art? := some "C", choices? := some ["R", "S"] }))])).storySegments.length = 1 + 1 ∧
    (runTurns (startNewStory initialState (.ok (.ok { text? := some "T", art? := some "A", choices? := some ["X", "Y"] })))
      [(0, .ok (.ok { text? := some "U", art? := some "B", choices? := some ["P", "Q"] })),
        (1, .ok (.ok { text? := some "V", art? := some "C", choices? := some ["R", "S"] }))]).storySegments.length = 1 + 2 ∧
    ∃ tail, (runTurns (startNewStory initialState (.ok (.ok { text? := some "T", art? := some "A", choices? := some ["X", "Y"] })))
      [(0, .ok (.ok { text? := some "U", art? := some "B", choices? := some ["P", "Q"] })),
        (1, .ok (.ok { text? := some "V", art? := some "C", choices? := some ["R", "S"] }))]).storySegments =
      (runTurns (startNewStory initialState (.ok (.ok { text? := some "T", art? := some "A", choices? := some ["X", "Y"] })))
        (List.take 1 [(0, .ok (.ok { text? := some "U", art? := some "B", choices? := some ["P", "Q"] })),
          (1, .ok (.ok { text? := some "V", art? := some "C", choices? := some ["R", "S"] }))])).storySegments ++ tail :=
  segments_append_only initialState
    { text? := some "T", art? := some "A", choices? := some ["X", "Y"] } rfl
    [(0, .ok (.ok { text? := some "U", art? := some "B", choices? := some ["P", "Q"] })),
      (1, .ok (.ok { text? := some "V", art? := some "C", choices? := some ["R", "S"] }))]
    (by decide) 1 (by decide)

lemma stringAppendAssoc (a b c : String) : a ++ b ++ c = a ++ (b ++ c) :=
  String.ext (by simp [String.data_append, List.append_assoc])

lemma retry_eq (s : AppState) (r : ApiResponse) :
    retry s r = handleChoice s 0 r := rfl

lemma continuePrompt_choice_inj (segs : List Segment) (a b : Option String)
    (h : continuePrompt segs a = continuePrompt segs b) :
    jsConcatCoerce a = jsConcatCoerce b := by
  have hd := congrArg String.data h
  simp only [continuePrompt, String.data_append, List.append_assoc] at hd
  have h1 := List.append_cancel_left hd
  have h2 := List.append_cancel_left h1
  have h3 := List.append_cancel_left h2
  have h4 := List.append_cancel_left h3
  have h5 := List.append_cancel_left h4
  exact String.ext (List.append_cancel_right h5)

/-- C8: when an error is active the single Try Again button resubmits choice
index 0: its transition and its prompt are those of `handleChoice` at index
0, whatever index was actually picked on the failed turn, and whenever the
choice texts at index 0 and at the picked index are defined and distinct,
the retried prompt differs from the one the picked index would send. -/
theorem retry_resubmits_first_choice (s : AppState) (r : ApiResponse)
    (picked : Nat) (cs : List String) (hcs : s.choices = some cs) :
    retry s r = handleChoice s 0 r ∧
    retryPrompt s = continuePrompt s.storySegments (cs.get? 0) ∧
    (∀ c0 cp, cs.get? 0 = some c0 → cs.get? picked = some cp → c0 ≠ cp →
      retryPrompt s ≠ handleChoicePrompt s picked) := by
  refine ⟨rfl, ?_, ?_⟩
  · simp [retryPrompt, handleChoicePrompt, hcs]
  · intro c0 cp h0 hp hne heq
    apply hne
    have hcoerce : jsConcatCoerce (cs.get? 0) = jsConcatCoerce (cs.get? picked) := by
      refine continuePrompt_choice_inj s.storySegments (cs.get? 0) (cs.get? picked) ?_
      simpa [retryPrompt, handleChoicePrompt, hcs] using heq
    rw [h0, hp] at hcoerce
    simpa [jsConcatCoerce] using hcoerce

/-- C8 witness: in the demo state, retrying after a failed pick of index 1
transitions and prompts as index 0 does, and sends a different prompt from
the one index 1 would send. -/
theorem retry_resubmits_first_choice_witness :
    retry demoState (.httpFailure none) = handleChoice demoState 0 (.httpFailure none) ∧
    retryPrompt demoState = continuePrompt demoState.storySegments (some "c") ∧
    retryPrompt demoState ≠ handleChoicePrompt demoState 1 := by
  obtain ⟨h1, h2, h3⟩ :=
    retry_resubmits_first_choice demoState (.httpFailure none) 1 ["c", "d"] rfl
  exact ⟨h1, h2, h3 "c" "d" rfl rfl (by decide)⟩

set_option maxRecDepth 100000 in
/-- C9: after a failed initial call the choice set is still the empty array,
so the Try Again button runs the continue path with an undefined selected
choice: the prompt it sends embeds the literal text undefined as the player
choice, and a further failure is recorded with the continue text, never the
start text — retry never re-runs `startNewStory`. -/
theorem failed_start_retry_continue_path (r0 r : ApiResponse)
    (h0 : r0.isFailure = true) (hr : r.isFailure = true) :
    (startNewStory initialState r0).choices = some [] ∧
    (startNewStory initialState r0).storySegments = [] ∧
    (∃ pre post, retryPrompt (startNewStory initialState r0) =
      pre ++ "undefined" ++ post) ∧
    (retry (startNewStory initialState r0) r).error =
      "Failed to continue story: " ++ r.failureMessage := by
  have hs1 := startNewStory_fail initialState r0 h0
  have hch : (startNewStory initialState r0).choices = some [] := by
    rw [hs1]; rfl
  have hseg : (startNewStory initialState r0).storySegments = [] := by
    rw [hs1]; rfl
  refine ⟨hch, hseg, ?_, ?_⟩
  · have hp : retryPrompt (startNewStory initialState r0) =
        continuePrompt [] (List.get? [] 0) := by
      rw [hs1]; rfl
    refine ⟨"Continue the choose-your-own-adventure story. Here\x27s the story so far:\n\n\n\nThe player chose: \"",
      "\"\n\nContinue the story with a new paragraph based on this choice. Include a simple ASCII art scene (around 10-15 lines) that represents the new situation. End with exactly two distinct new choices for how the player might proceed. Format your response as JSON with the following structure: \x7b\"text\": \"story paragraph\", \"art\": \"ASCII art\", \"choices\": [\"choice 1\", \"choice 2\"]\x7d", ?_⟩
    rw [hp]
    decide
  · rw [retry_eq, handleChoice_fail (startNewStory initialState r0) [] hch 0 r hr]

/-- C9 witness: a failed start under an unknown network error, retried into
a rate-limited failure. -/
theorem failed_start_retry_continue_path_witness :
    (startNewStory initialState (.httpFailure none)).choices = some [] ∧
    (startNewStory initialState (.httpFailure none)).storySegments = [] ∧
    (∃ pre post, retryPrompt (startNewStory initialState (.httpFailure none)) =
      pre ++ "undefined" ++ post) ∧
    (retry (startNewStory initialState (.httpFailure none)) (.httpFailure (some "rate limited"))).error =
      "Failed to continue story: " ++ (ApiResponse.httpFailure (some "rate limited")).failureMessage :=
  failed_start_retry_continue_path (.httpFailure none) (.httpFailure (some "rate limited")) rfl rfl

/-- C10: an out-of-range index does not make `handleChoice` fail on the
lookup: the selected choice reads as undefined, the continue prompt is still
built with the literal text undefined embedded as the chosen text, and a
successful reply appends one new segment exactly as for an in-range index,
with no error recorded. -/
theorem out_of_range_choice (s : AppState) (cs : List String)
    (hcs : s.choices = some cs) (i : Nat) (hi : cs.length ≤ i) (d : ParsedContent) :
    handleChoicePrompt s i = continuePrompt s.storySegments none ∧
    (∃ pre post, handleChoicePrompt s i = pre ++ "undefined" ++ post) ∧
    (handleChoice s i (.ok (.ok d))).storySegments =
      s.storySegments ++ [{ text := d.text?, art := d.art? }] ∧
    (handleChoice s i (.ok (.ok d))).error = "" := by
  have hnone : cs.get? i = none := List.get?_len_le hi
  have hprompt : handleChoicePrompt s i = continuePrompt s.storySegments none := by
    have hmatch : handleChoicePrompt s i =
        continuePrompt s.storySegments (cs.get? i) := by
      simp only [handleChoicePrompt, hcs]
    rw [hmatch, hnone]
  refine ⟨hprompt, ?_, ?_, ?_⟩
  · refine ⟨"Continue the choose-your-own-adventure story. " ++
      "Here\x27s the story so far:\n\n" ++ previousStory s.storySegments ++
      "\n\n" ++ "The player chose: \"",
      "\"\n\n" ++ "Continue the story with a new paragraph based on this choice. " ++
      "Include a simple ASCII art scene (around 10-15 lines) that represents the new situation. " ++
      "End with exactly two distinct new choices for how the player might proceed. " ++
      "Format your response as JSON with the following structure: " ++
      "\x7b\"text\": \"story paragraph\", \"art\": \"ASCII art\", \"choices\": [\"choice 1\", \"choice 2\"]\x7d", ?_⟩
    rw [hprompt]
    simp only [continuePrompt, jsConcatCoerce, stringAppendAssoc]
  · rw [handleChoice_ok s cs hcs i d]
  · rw [handleChoice_ok s cs hcs i d]

/-- C10 witness: index 5 on the two-choice demo state, with a successful
reply. -/
theorem out_of_range_choice_witness :
    handleChoicePrompt demoState 5 = continuePrompt demoState.storySegments none ∧
    (∃ pre post, handleChoicePrompt demoState 5 = pre ++ "undefined" ++ post) ∧
    (handleChoice demoState 5 (.ok (.ok { text? := some "T", art? := some "A", choices? := some ["X", "Y"] }))).storySegments =
      demoState.storySegments ++ [{ text := some "T", art := some "A" }] ∧
    (handleChoice demoState 5 (.ok (.ok { text? := some "T", art? := some "A", choices? := some ["X", "Y"] }))).error = "" :=
  out_of_range_choice demoState ["c", "d"] rfl 5 (by decide)
    { text? := some "T", art? := some "A", choices? := some ["X", "Y"] }

end AdventureGame
